import Mathlib

/-!
Verification of eth2-key-manager, `core/networks.go`

A shallow embedding of the network registry of `core/networks.go` and the
properties of its lookups and of its time-to-slot and slot-to-epoch converters.

Conventions of the embedding.

* `Network` is a Go string type; it is embedded as `String`, so that every
  identifier the code can receive (the four constants, the empty string, any
  other text) is a value of the type.
* `logrus ... Fatal` logs and exits the process: the statement after it is never
  reached. A method with such a path returns `Except FatalError α`, the error
  carrying the logged identifier. A method with no such path is a total function.
* `uint64` values are `Nat`, `int64` values are `Int`; the conversions between
  the two and the wrapping `int64` subtraction are written out with `2^64`.
* The wall clock read by `prysmTime.Now().Unix()` is an argument `now`.
-/

namespace core

/-- Go `type Network string`. -/
abbrev Network := String

/-- Go `PyrmontNetwork Network = "pyrmont"`. -/
def PyrmontNetwork : Network := "pyrmont"

/-- Go `PraterNetwork Network = "prater"`. -/
def PraterNetwork : Network := "prater"

/-- Go `MainNetwork Network = "mainnet"`. -/
def MainNetwork : Network := "mainnet"

/-- Go `DevNetwork Network = "devnet"`. -/
def DevNetwork : Network := "devnet"

/-- The process-terminating failure: `logrus.WithField("network", n).Fatal("undefined network")`. -/
inductive FatalError where
  | undefinedNetwork (n : Network)
  deriving DecidableEq, Repr

deriving instance DecidableEq for Except

/-- Go `NetworkFromString`: a `switch` over the four tags, `""` by default. -/
def NetworkFromString (n : String) : Network :=
  if n = PyrmontNetwork then PyrmontNetwork
  else if n = PraterNetwork then PraterNetwork
  else if n = MainNetwork then MainNetwork
  else if n = DevNetwork then DevNetwork
  else ""

/-- Go `Network.ForkVersion`: the bytes are given as numbers below 256. -/
def ForkVersion (n : Network) : Except FatalError (List Nat) :=
  if n = PyrmontNetwork then .ok [0, 0, 32, 9]
  else if n = PraterNetwork then .ok [0x00, 0x00, 0x10, 0x20]
  else if n = MainNetwork then .ok [0, 0, 0, 0]
  else if n = DevNetwork then .ok [0x10, 0x00, 0x00, 0x38]
  else .error (.undefinedNetwork n)

/-- Go `Network.DepositContractAddress`. -/
def DepositContractAddress (n : Network) : Except FatalError String :=
  if n = PyrmontNetwork then .ok "0x8c5fecdC472E27Bc447696F431E425D02dd46a8c"
  else if n = PraterNetwork then .ok "0xff50ed3d0ec03ac01d4c79aad74928bff48a7b2b"
  else if n = MainNetwork then .ok "0x00000000219ab540356cBB839Cbe05303d7705Fa"
  else if n = DevNetwork then .ok "0x4242424242424242424242424242424242424242"
  else .error (.undefinedNetwork n)

/-- Go `Network.FullPath`. The constant `BaseEIP2334Path` is declared in another
file of the package; it is taken as an argument. -/
def FullPath (BaseEIP2334Path : String) (_n : Network) (relativePath : String) : String :=
  BaseEIP2334Path ++ relativePath

/-- Go `Network.MinGenesisTime` (a `uint64`). -/
def MinGenesisTime (n : Network) : Except FatalError Nat :=
  if n = PyrmontNetwork then .ok 1605700807
  else if n = PraterNetwork then .ok 1616508000
  else if n = MainNetwork then .ok 1606824023
  else if n = DevNetwork then .ok 1668789575
  else .error (.undefinedNetwork n)

/-- Go `time.Second`, in nanoseconds (`time.Duration` is an `int64` of nanoseconds). -/
def Second : Int := 1000000000

/-- Go `Network.SlotDurationSec`: `12 * time.Second`. -/
def SlotDurationSec (_n : Network) : Int :=
  12 * Second

/-- Go `uint64(d.Seconds())` for a duration `d`. `Seconds` returns the `float64`
`float64(d / Second) + float64(d % Second) / 1e9` (truncating `/` and `%`), and
the conversion to `uint64` drops the fraction again, which leaves `d / Second`.
Both steps are exact in `float64` for a whole number of seconds below `2^53`,
the only kind of duration this file produces. -/
def uint64OfSeconds (d : Int) : Nat :=
  Int.toNat (Int.tdiv d Second) % 2 ^ 64

/-- Go `int64(x)` for a `uint64` `x`: the same 64 bits read as two's complement. -/
def int64OfUint64 (x : Nat) : Int :=
  if x % 2 ^ 64 < 2 ^ 63 then ((x % 2 ^ 64 : Nat) : Int) else ((x % 2 ^ 64 : Nat) : Int) - 2 ^ 64

/-- Go `a - b` on `int64`: the difference wrapped into `[-2^63, 2^63)`. -/
def subInt64 (a b : Int) : Int :=
  (a - b + 2 ^ 63) % 2 ^ 64 - 2 ^ 63

/-- Go `uint64(x)` for an `int64` `x`: the same 64 bits read as unsigned. -/
def uint64OfInt64 (x : Int) : Nat :=
  Int.toNat (x % 2 ^ 64)

/-- Go `Network.SlotsPerEpoch`. -/
def SlotsPerEpoch (_n : Network) : Nat :=
  32

/-- Go `Network.EstimatedSlotAtTime`. The genesis lookup comes first; the divisor
is `uint64(n.SlotDurationSec().Seconds())`. -/
def EstimatedSlotAtTime (n : Network) (time : Int) : Except FatalError Nat :=
  match MinGenesisTime n with
  | .error e => .error e
  | .ok g =>
    let genesis := int64OfUint64 g
    if time < genesis then .ok 0
    else .ok (uint64OfInt64 (subInt64 time genesis) / uint64OfSeconds (SlotDurationSec n))

/-- Go `Network.EstimatedCurrentSlot`, with `prysmTime.Now().Unix()` given as `now`. -/
def EstimatedCurrentSlot (now : Int) (n : Network) : Except FatalError Nat :=
  EstimatedSlotAtTime n now

/-- Go `Network.EstimatedEpochAtSlot`: `slot / types.Slot(n.SlotsPerEpoch())` on `uint64`. -/
def EstimatedEpochAtSlot (n : Network) (slot : Nat) : Nat :=
  slot / SlotsPerEpoch n

/-- Go `Network.EstimatedCurrentEpoch`: the current slot is computed first, then
converted. -/
def EstimatedCurrentEpoch (now : Int) (n : Network) : Except FatalError Nat :=
  match EstimatedCurrentSlot now n with
  | .error e => .error e
  | .ok slot => .ok (EstimatedEpochAtSlot n slot)

/-- The four identifiers the registry has a record for. -/
def IsKnown (n : Network) : Prop :=
  n = PyrmontNetwork ∨ n = PraterNetwork ∨ n = MainNetwork ∨ n = DevNetwork

instance (n : Network) : Decidable (IsKnown n) := by
  unfold IsKnown; infer_instance

/-- A hexadecimal digit, in either case. -/
def isHexDigit (c : Char) : Bool :=
  (decide ('0' ≤ c) && decide (c ≤ '9')) ||
    (decide ('a' ≤ c) && decide (c ≤ 'f')) ||
    (decide ('A' ≤ c) && decide (c ≤ 'F'))

/-- The shape of a hex-encoded account address: `0x` and 40 hexadecimal digits. -/
def IsHexAddress (addr : String) : Prop :=
  addr.data.take 2 = ['0', 'x'] ∧ (addr.data.drop 2).length = 40 ∧
    (addr.data.drop 2).all isHexDigit = true

instance (addr : String) : Decidable (IsHexAddress addr) := by
  unfold IsHexAddress; infer_instance

/-- The range of a Go `int64`. -/
def IsInt64 (t : Int) : Prop :=
  -(2 : Int) ^ 63 ≤ t ∧ t < (2 : Int) ^ 63

instance (t : Int) : Decidable (IsInt64 t) := by
  unfold IsInt64; infer_instance

/-- The range of a Go `uint64`. -/
def IsUint64 (s : Nat) : Prop :=
  s < 2 ^ 64

instance (s : Nat) : Decidable (IsUint64 s) := by
  unfold IsUint64; infer_instance

end core

namespace core

/-! ## Shared facts about the lookups and the machine arithmetic -/

theorem minGenesisTime_of_known (n : Network) (hn : IsKnown n) :
    ∃ g, MinGenesisTime n = .ok g ∧ 1605700807 ≤ g ∧ g ≤ 1668789575 := by
  rcases hn with rfl | rfl | rfl | rfl
  · exact ⟨1605700807, by decide, by decide, by decide⟩
  · exact ⟨1616508000, by decide, by decide, by decide⟩
  · exact ⟨1606824023, by decide, by decide, by decide⟩
  · exact ⟨1668789575, by decide, by decide, by decide⟩

theorem lookup_of_unknown {α : Type} (n : Network) (hn : ¬ IsKnown n) (a b c d : α) :
    (if n = PyrmontNetwork then Except.ok a
      else if n = PraterNetwork then .ok b
      else if n = MainNetwork then .ok c
      else if n = DevNetwork then .ok d
      else .error (FatalError.undefinedNetwork n)) = .error (FatalError.undefinedNetwork n) := by
  unfold IsKnown at hn
  push_neg at hn
  obtain ⟨h1, h2, h3, h4⟩ := hn
  simp [h1, h2, h3, h4]

theorem uint64OfSeconds_slotDurationSec (n : Network) :
    uint64OfSeconds (SlotDurationSec n) = 12 := by
  show uint64OfSeconds (12 * Second) = 12
  decide

theorem int64OfUint64_small (g : Nat) (hg : g < 2 ^ 63) : int64OfUint64 g = (g : Int) := by
  unfold int64OfUint64
  have h : g % 2 ^ 64 = g := Nat.mod_eq_of_lt (by omega)
  rw [h, if_pos hg]

theorem subInt64_exact (a b : Int) (h0 : 0 ≤ a - b) (h1 : a - b < 2 ^ 63) :
    subInt64 a b = a - b := by
  unfold subInt64
  omega

theorem uint64OfInt64_nonneg (x : Int) (h0 : 0 ≤ x) (h1 : x < 2 ^ 63) :
    uint64OfInt64 x = x.toNat := by
  unfold uint64OfInt64
  congr 1
  omega

theorem estimatedSlotAtTime_eval (n : Network) (t : Int) (g : Nat)
    (hg : MinGenesisTime n = .ok g) (hg63 : g < 2 ^ 63) (ht : IsInt64 t) :
    EstimatedSlotAtTime n t = .ok (if t < (g : Int) then 0 else (t - g).toNat / 12) := by
  unfold EstimatedSlotAtTime
  rw [hg]
  simp only [int64OfUint64_small g hg63, uint64OfSeconds_slotDurationSec]
  obtain ⟨_, hhi⟩ := ht
  by_cases hlt : t < (g : Int)
  · simp [hlt]
  · have h0 : 0 ≤ t - (g : Int) := by omega
    have h1 : t - (g : Int) < 2 ^ 63 := by omega
    simp only [hlt, if_false, subInt64_exact t g h0 h1, uint64OfInt64_nonneg _ h0 h1]

theorem floor_div_twelve (d : Int) : ⌊((d : Int) : ℚ) / 12⌋ = d / 12 := by
  have h := Rat.floor_intCast_div_natCast d 12
  simpa using h

theorem toNat_div_twelve (d : Int) (h0 : 0 ≤ d) : d.toNat / 12 = (d / 12).toNat := by
  omega

/-! ## C1 and C2: the slot at a given time -/

/-- C1: for a known network with genesis time `g`, every `int64` timestamp
`t ≥ g` is mapped to slot `floor((t - g) / 12)`; in particular `g + 12` and
`g + 23` are in slot 1 and `g + 24` is in slot 2. -/
theorem estimatedSlotAtTime_after_genesis (n : Network) (t : Int) (g : Nat)
    (hn : IsKnown n) (hg : MinGenesisTime n = .ok g) (ht : IsInt64 t) (hge : (g : Int) ≤ t) :
    EstimatedSlotAtTime n t = .ok (⌊((t - (g : Int) : Int) : ℚ) / 12⌋).toNat ∧
      EstimatedSlotAtTime n ((g : Int) + 12) = .ok 1 ∧
      EstimatedSlotAtTime n ((g : Int) + 23) = .ok 1 ∧
      EstimatedSlotAtTime n ((g : Int) + 24) = .ok 2 := by
  obtain ⟨g', hg', hlo, hhi⟩ := minGenesisTime_of_known n hn
  obtain rfl : g' = g := by
    rw [hg] at hg'
    injection hg' with h
    exact h.symm
  have hg63 : g' < 2 ^ 63 := by omega
  have key : ∀ u : Int, IsInt64 u → (g' : Int) ≤ u →
      EstimatedSlotAtTime n u = .ok ((u - (g' : Int)) / 12).toNat := by
    intro u hu hgu
    rw [estimatedSlotAtTime_eval n u g' hg hg63 hu, if_neg (by omega),
      toNat_div_twelve _ (by omega)]
  refine ⟨?_, ?_, ?_, ?_⟩
  · rw [floor_div_twelve]
    exact key t ht hge
  · rw [key _ (by unfold IsInt64; omega) (by omega)]
    congr 1
    omega
  · rw [key _ (by unfold IsInt64; omega) (by omega)]
    congr 1
    omega
  · rw [key _ (by unfold IsInt64; omega) (by omega)]
    congr 1
    omega

theorem estimatedSlotAtTime_after_genesis_witness :
    IsKnown MainNetwork ∧ MinGenesisTime MainNetwork = .ok 1606824023 ∧
      IsInt64 1606827623 ∧ ((1606824023 : Nat) : Int) ≤ 1606827623 ∧
      (EstimatedSlotAtTime MainNetwork 1606827623
          = .ok (⌊((1606827623 - ((1606824023 : Nat) : Int) : Int) : ℚ) / 12⌋).toNat ∧
        EstimatedSlotAtTime MainNetwork (((1606824023 : Nat) : Int) + 12) = .ok 1 ∧
        EstimatedSlotAtTime MainNetwork (((1606824023 : Nat) : Int) + 23) = .ok 1 ∧
        EstimatedSlotAtTime MainNetwork (((1606824023 : Nat) : Int) + 24) = .ok 2) :=
  ⟨by decide, by decide, by decide, by decide,
    estimatedSlotAtTime_after_genesis MainNetwork 1606827623 1606824023
      (by decide) (by decide) (by decide) (by decide)⟩

/-- C2: for a known network with genesis time `g`, every `int64` timestamp
`t ≤ g` (the genesis time itself, zero and the negative ones included) is mapped
to slot 0. -/
theorem estimatedSlotAtTime_until_genesis (n : Network) (t : Int) (g : Nat)
    (hn : IsKnown n) (hg : MinGenesisTime n = .ok g) (ht : IsInt64 t) (hle : t ≤ (g : Int)) :
    EstimatedSlotAtTime n t = .ok 0 ∧
      EstimatedSlotAtTime n (g : Int) = .ok 0 ∧
      EstimatedSlotAtTime n 0 = .ok 0 ∧
      EstimatedSlotAtTime n (-(2 : Int) ^ 63) = .ok 0 := by
  obtain ⟨g', hg', hlo, hhi⟩ := minGenesisTime_of_known n hn
  obtain rfl : g' = g := by
    rw [hg] at hg'
    injection hg' with h
    exact h.symm
  have hg63 : g' < 2 ^ 63 := by omega
  have key : ∀ u : Int, IsInt64 u → u ≤ (g' : Int) → EstimatedSlotAtTime n u = .ok 0 := by
    intro u hu hug
    rw [estimatedSlotAtTime_eval n u g' hg hg63 hu]
    by_cases hlt : u < (g' : Int)
    · rw [if_pos hlt]
    · have hd : (u - (g' : Int)).toNat = 0 := by omega
      rw [if_neg hlt, hd]
  refine ⟨key t ht hle, ?_, ?_, ?_⟩
  · exact key _ (by unfold IsInt64; omega) (by omega)
  · exact key _ (by unfold IsInt64; omega) (by omega)
  · exact key _ (by unfold IsInt64; omega) (by omega)

theorem estimatedSlotAtTime_until_genesis_witness :
    IsKnown PraterNetwork ∧ MinGenesisTime PraterNetwork = .ok 1616508000 ∧
      IsInt64 (-7) ∧ (-7 : Int) ≤ ((1616508000 : Nat) : Int) ∧
      (EstimatedSlotAtTime PraterNetwork (-7) = .ok 0 ∧
        EstimatedSlotAtTime PraterNetwork ((1616508000 : Nat) : Int) = .ok 0 ∧
        EstimatedSlotAtTime PraterNetwork 0 = .ok 0 ∧
        EstimatedSlotAtTime PraterNetwork (-(2 : Int) ^ 63) = .ok 0) :=
  ⟨by decide, by decide, by decide, by decide,
    estimatedSlotAtTime_until_genesis PraterNetwork (-7) 1616508000
      (by decide) (by decide) (by decide) (by decide)⟩

/-! ## C3: the epoch of a slot -/

/-- C3: for every network identifier `n` and every slot `s`, the epoch is
`floor(s / SlotsPerEpoch(n)) = floor(s / 32)`, never above `s`;
slot 31 is in epoch 0 and slot 32 in epoch 1. -/
theorem estimatedEpochAtSlot_floor (n : Network) (s : Nat) :
    EstimatedEpochAtSlot n s = ⌊((s : Nat) : ℚ) / ((SlotsPerEpoch n : Nat) : ℚ)⌋₊ ∧
      EstimatedEpochAtSlot n s = ⌊((s : Nat) : ℚ) / 32⌋₊ ∧
      EstimatedEpochAtSlot n s = s / 32 ∧
      EstimatedEpochAtSlot n s ≤ s ∧
      EstimatedEpochAtSlot n 31 = 0 ∧
      EstimatedEpochAtSlot n 32 = 1 := by
  have h32 : SlotsPerEpoch n = 32 := rfl
  have hdiv : EstimatedEpochAtSlot n s = s / 32 := rfl
  have hfl : ⌊((s : Nat) : ℚ) / 32⌋₊ = s / 32 := by
    have h := Nat.floor_div_eq_div (α := ℚ) s 32
    simpa using h
  have h31 : EstimatedEpochAtSlot n 31 = 0 := by
    show 31 / 32 = 0
    decide
  have h32' : EstimatedEpochAtSlot n 32 = 1 := by
    show 32 / 32 = 1
    decide
  refine ⟨?_, ?_, hdiv, ?_, h31, h32'⟩
  · rw [h32, hdiv, ← hfl]
    norm_num
  · rw [hdiv, hfl]
  · rw [hdiv]
    exact Nat.div_le_self s 32

/-! ## C4: parsing a network tag -/

/-- C4: the four tags are mapped to their constants, every other string (the
empty one, case and whitespace variants included) to the empty network; the
function is total. -/
theorem networkFromString_spec (s : String) :
    NetworkFromString "pyrmont" = PyrmontNetwork ∧
      NetworkFromString "prater" = PraterNetwork ∧
      NetworkFromString "mainnet" = MainNetwork ∧
      NetworkFromString "devnet" = DevNetwork ∧
      (s ≠ "pyrmont" → s ≠ "prater" → s ≠ "mainnet" → s ≠ "devnet" →
        NetworkFromString s = "") ∧
      NetworkFromString "" = "" ∧
      NetworkFromString "Mainnet" = "" ∧
      NetworkFromString "MAINNET" = "" ∧
      NetworkFromString " mainnet" = "" ∧
      NetworkFromString "mainnet " = "" ∧
      NetworkFromString "mainnet\n" = "" := by
  refine ⟨by decide, by decide, by decide, by decide, ?_, by decide, by decide, by decide,
    by decide, by decide, by decide⟩
  intro h1 h2 h3 h4
  unfold NetworkFromString PyrmontNetwork PraterNetwork MainNetwork DevNetwork
  simp [h1, h2, h3, h4]

theorem networkFromString_spec_witness :
    ("goerli" ≠ "pyrmont" ∧ "goerli" ≠ "prater" ∧ "goerli" ≠ "mainnet" ∧ "goerli" ≠ "devnet") ∧
      NetworkFromString "goerli" = "" :=
  ⟨by decide, (networkFromString_spec "goerli").2.2.2.2.1
    (by decide) (by decide) (by decide) (by decide)⟩

/-! ## C5 and C6: the lookups on an identifier without a record -/

theorem ok_iff_known {α : Type} (n : Network) (a b c d : α) :
    (∃ v, (if n = PyrmontNetwork then Except.ok a
      else if n = PraterNetwork then .ok b
      else if n = MainNetwork then .ok c
      else if n = DevNetwork then .ok d
      else .error (FatalError.undefinedNetwork n)) = Except.ok v) ↔ IsKnown n := by
  constructor
  · intro h
    by_contra hn
    obtain ⟨v, hv⟩ := h
    rw [lookup_of_unknown n hn] at hv
    cases hv
  · intro hn
    unfold IsKnown at hn
    by_cases h1 : n = PyrmontNetwork
    · exact ⟨a, by rw [if_pos h1]⟩
    · by_cases h2 : n = PraterNetwork
      · exact ⟨b, by rw [if_neg h1, if_pos h2]⟩
      · by_cases h3 : n = MainNetwork
        · exact ⟨c, by rw [if_neg h1, if_neg h2, if_pos h3]⟩
        · have h4 : n = DevNetwork := by tauto
          exact ⟨d, by rw [if_neg h1, if_neg h2, if_neg h3, if_pos h4]⟩

/-- C5: each of `ForkVersion`, `DepositContractAddress` and `MinGenesisTime`
returns a value exactly for the four known identifiers; for every other
identifier, the empty one included, each of them ends in the fatal
undefined-network failure naming that identifier. -/
theorem lookups_return_iff_known (n : Network) :
    ((∃ v, ForkVersion n = .ok v) ↔ IsKnown n) ∧
      ((∃ v, DepositContractAddress n = .ok v) ↔ IsKnown n) ∧
      ((∃ v, MinGenesisTime n = .ok v) ↔ IsKnown n) ∧
      (¬ IsKnown n →
        ForkVersion n = .error (.undefinedNetwork n) ∧
        DepositContractAddress n = .error (.undefinedNetwork n) ∧
        MinGenesisTime n = .error (.undefinedNetwork n)) ∧
      ¬ IsKnown "" := by
  refine ⟨ok_iff_known n _ _ _ _, ok_iff_known n _ _ _ _, ok_iff_known n _ _ _ _, ?_,
    by decide⟩
  intro hn
  exact ⟨lookup_of_unknown n hn _ _ _ _, lookup_of_unknown n hn _ _ _ _,
    lookup_of_unknown n hn _ _ _ _⟩

theorem lookups_return_iff_known_witness :
    ¬ IsKnown "" ∧
      ForkVersion "" = .error (.undefinedNetwork "") ∧
      DepositContractAddress "" = .error (.undefinedNetwork "") ∧
      MinGenesisTime "" = .error (.undefinedNetwork "") :=
  ⟨by decide, (lookups_return_iff_known "").2.2.2.1 (by decide)⟩

/-- C6, as stated, fails: on the empty identifier, which has no record,
`FullPath`, `SlotDurationSec`, `SlotsPerEpoch` and `EstimatedEpochAtSlot` are
total functions and return a value. -/
theorem accessors_on_unknown_counterexample :
    ¬ IsKnown "" ∧
      FullPath "m/12381/3600" "" "/0/0" = "m/12381/3600/0/0" ∧
      SlotDurationSec "" = 12000000000 ∧
      SlotsPerEpoch "" = 32 ∧
      EstimatedEpochAtSlot "" 64 = 2 := by
  refine ⟨by decide, by decide, by decide, by decide, by decide⟩

/-- C6, amended: on an identifier without a record, `ForkVersion`,
`DepositContractAddress`, `MinGenesisTime` and `EstimatedSlotAtTime` end in the
fatal undefined-network failure and return no value, while `FullPath`,
`SlotDurationSec`, `SlotsPerEpoch` and `EstimatedEpochAtSlot` do not look the
identifier up and return their network-independent value. -/
theorem accessors_on_unknown (n : Network) (hn : ¬ IsKnown n) :
    ForkVersion n = .error (.undefinedNetwork n) ∧
      DepositContractAddress n = .error (.undefinedNetwork n) ∧
      MinGenesisTime n = .error (.undefinedNetwork n) ∧
      (∀ t : Int, EstimatedSlotAtTime n t = .error (.undefinedNetwork n)) ∧
      (∀ base p : String, FullPath base n p = base ++ p) ∧
      SlotDurationSec n = 12 * Second ∧
      SlotsPerEpoch n = 32 ∧
      (∀ s : Nat, EstimatedEpochAtSlot n s = s / 32) := by
  have hg : MinGenesisTime n = .error (.undefinedNetwork n) := lookup_of_unknown n hn _ _ _ _
  refine ⟨lookup_of_unknown n hn _ _ _ _, lookup_of_unknown n hn _ _ _ _, hg, ?_,
    fun _ _ => rfl, rfl, rfl, fun _ => rfl⟩
  intro t
  unfold EstimatedSlotAtTime
  rw [hg]

theorem accessors_on_unknown_witness :
    ¬ IsKnown "ropsten" ∧
      (ForkVersion "ropsten" = .error (.undefinedNetwork "ropsten") ∧
      DepositContractAddress "ropsten" = .error (.undefinedNetwork "ropsten") ∧
      MinGenesisTime "ropsten" = .error (.undefinedNetwork "ropsten") ∧
      (∀ t : Int, EstimatedSlotAtTime "ropsten" t = .error (.undefinedNetwork "ropsten")) ∧
      (∀ base p : String, FullPath base "ropsten" p = base ++ p) ∧
      SlotDurationSec "ropsten" = 12 * Second ∧
      SlotsPerEpoch "ropsten" = 32 ∧
      (∀ s : Nat, EstimatedEpochAtSlot "ropsten" s = s / 32)) :=
  ⟨by decide, accessors_on_unknown "ropsten" (by decide)⟩

/-! ## C7: the estimates at the current time -/

/-- C7: with the clock value `now`, on a known network the current slot is the
slot at `now`, both current estimates return, and the current epoch is the epoch
of the current slot; one hour after the main network's genesis they are slot 300
and epoch 9. -/
theorem estimatedCurrent_spec (now : Int) (n : Network) (hn : IsKnown n) :
    EstimatedCurrentSlot now n = EstimatedSlotAtTime n now ∧
      (∃ slot, EstimatedCurrentSlot now n = .ok slot ∧
        EstimatedCurrentEpoch now n = .ok (EstimatedEpochAtSlot n slot)) ∧
      (∃ g : Nat, MinGenesisTime MainNetwork = .ok g ∧
        EstimatedCurrentSlot ((g : Int) + 3600) MainNetwork = .ok 300 ∧
        EstimatedCurrentEpoch ((g : Int) + 3600) MainNetwork = .ok 9) := by
  refine ⟨rfl, ?_, ⟨1606824023, by decide, by decide, by decide⟩⟩
  obtain ⟨g, hg, _, _⟩ := minGenesisTime_of_known n hn
  have hslot : ∃ slot, EstimatedSlotAtTime n now = .ok slot := by
    unfold EstimatedSlotAtTime
    rw [hg]
    dsimp only
    split
    · exact ⟨_, rfl⟩
    · exact ⟨_, rfl⟩
  obtain ⟨slot, hs⟩ := hslot
  refine ⟨slot, hs, ?_⟩
  unfold EstimatedCurrentEpoch EstimatedCurrentSlot
  rw [hs]

theorem estimatedCurrent_spec_witness :
    IsKnown DevNetwork ∧
      (EstimatedCurrentSlot 1668789600 DevNetwork = EstimatedSlotAtTime DevNetwork 1668789600 ∧
      (∃ slot, EstimatedCurrentSlot 1668789600 DevNetwork = .ok slot ∧
        EstimatedCurrentEpoch 1668789600 DevNetwork = .ok (EstimatedEpochAtSlot DevNetwork slot)) ∧
      (∃ g : Nat, MinGenesisTime MainNetwork = .ok g ∧
        EstimatedCurrentSlot ((g : Int) + 3600) MainNetwork = .ok 300 ∧
        EstimatedCurrentEpoch ((g : Int) + 3600) MainNetwork = .ok 9)) :=
  ⟨by decide, estimatedCurrent_spec 1668789600 DevNetwork (by decide)⟩

/-! ## C8: the records of the known networks -/

/-- C8: every known network has a complete record: a fork version of exactly
4 bytes, a deposit contract address of 42 characters (`0x` and 40 hexadecimal
digits, so not empty), and a non-zero `uint64` genesis time. -/
theorem known_record_complete (n : Network) (hn : IsKnown n) :
    ∃ (fv : List Nat) (addr : String) (g : Nat),
      ForkVersion n = .ok fv ∧ DepositContractAddress n = .ok addr ∧
      MinGenesisTime n = .ok g ∧
      fv.length = 4 ∧ (∀ b ∈ fv, b < 256) ∧
      addr ≠ "" ∧ addr.length = 42 ∧ IsHexAddress addr ∧
      g ≠ 0 ∧ IsUint64 g := by
  rcases hn with rfl | rfl | rfl | rfl
  · exact ⟨[0, 0, 32, 9], "0x8c5fecdC472E27Bc447696F431E425D02dd46a8c", 1605700807,
      by decide, by decide, by decide, by decide, by decide, by decide, by decide, by decide,
      by decide, by decide⟩
  · exact ⟨[0x00, 0x00, 0x10, 0x20], "0xff50ed3d0ec03ac01d4c79aad74928bff48a7b2b", 1616508000,
      by decide, by decide, by decide, by decide, by decide, by decide, by decide, by decide,
      by decide, by decide⟩
  · exact ⟨[0, 0, 0, 0], "0x00000000219ab540356cBB839Cbe05303d7705Fa", 1606824023,
      by decide, by decide, by decide, by decide, by decide, by decide, by decide, by decide,
      by decide, by decide⟩
  · exact ⟨[0x10, 0x00, 0x00, 0x38], "0x4242424242424242424242424242424242424242", 1668789575,
      by decide, by decide, by decide, by decide, by decide, by decide, by decide, by decide,
      by decide, by decide⟩

theorem known_record_complete_witness :
    IsKnown PyrmontNetwork ∧
      ∃ (fv : List Nat) (addr : String) (g : Nat),
        ForkVersion PyrmontNetwork = .ok fv ∧ DepositContractAddress PyrmontNetwork = .ok addr ∧
        MinGenesisTime PyrmontNetwork = .ok g ∧
        fv.length = 4 ∧ (∀ b ∈ fv, b < 256) ∧
        addr ≠ "" ∧ addr.length = 42 ∧ IsHexAddress addr ∧
        g ≠ 0 ∧ IsUint64 g :=
  ⟨by decide, known_record_complete PyrmontNetwork (by decide)⟩

/-! ## C9 and C10: the accessors that do not depend on the network -/

/-- C9: for any two network identifiers and any relative path, `FullPath` gives
the same result, the base path followed by the relative path; it is a total
function, so it returns for the empty identifier as well. -/
theorem fullPath_network_independent (base : String) (n1 n2 : Network) (p : String) :
    FullPath base n1 p = FullPath base n2 p ∧
      FullPath base n2 p = base ++ p ∧
      FullPath base "" p = base ++ p ∧
      (FullPath base n1 p).data = base.data ++ p.data := by
  refine ⟨rfl, rfl, rfl, ?_⟩
  unfold FullPath
  exact String.data_append base p

/-- C10: for every network identifier, known or not, the slot duration is exactly
12 seconds (12 000 000 000 ns, read as 12 by the slot computation) and an epoch
has exactly 32 slots. -/
theorem slot_constants (n : Network) :
    SlotDurationSec n = 12 * Second ∧
      SlotDurationSec n = 12000000000 ∧
      uint64OfSeconds (SlotDurationSec n) = 12 ∧
      SlotsPerEpoch n = 32 ∧
      SlotDurationSec n = SlotDurationSec "" ∧
      SlotsPerEpoch n = SlotsPerEpoch "" := by
  refine ⟨rfl, ?_, uint64OfSeconds_slotDurationSec n, rfl, rfl, rfl⟩
  show (12 : Int) * Second = 12000000000
  decide

/-! ## C11: the machine arithmetic of the slot computation -/

/-- C11: for a known network with genesis time `g` and any `int64` timestamp
`t`, the result computed with 64-bit conversions and wrapping subtraction is the
unbounded-integer value `max(0, floor((t - g) / 12))`: `g < 2^63`, so `int64(g)`
is `g`; for `t ≥ g` the subtraction gives `t - g` without wrapping; and the
difference that reaches the `uint64` conversion (`t` not below the genesis time)
is non-negative and keeps its value. The smallest and the largest `int64`
timestamp are covered. -/
theorem estimatedSlotAtTime_machine_exact (n : Network) (t : Int) (g : Nat)
    (hn : IsKnown n) (hg : MinGenesisTime n = .ok g) (ht : IsInt64 t) :
    EstimatedSlotAtTime n t = .ok (max 0 ⌊((t - (g : Int) : Int) : ℚ) / 12⌋).toNat ∧
      g < 2 ^ 63 ∧ int64OfUint64 g = (g : Int) ∧
      ((g : Int) ≤ t → subInt64 t (int64OfUint64 g) = t - (g : Int)) ∧
      (¬ t < int64OfUint64 g →
        0 ≤ subInt64 t (int64OfUint64 g) ∧
        ((uint64OfInt64 (subInt64 t (int64OfUint64 g)) : Nat) : Int) = t - (g : Int)) ∧
      EstimatedSlotAtTime n (-(2 : Int) ^ 63) = .ok 0 ∧
      EstimatedSlotAtTime n ((2 : Int) ^ 63 - 1)
        = .ok (((2 : Int) ^ 63 - 1 - (g : Int)) / 12).toNat := by
  obtain ⟨g', hg', hlo, hhi⟩ := minGenesisTime_of_known n hn
  obtain rfl : g' = g := by
    rw [hg] at hg'
    injection hg' with h
    exact h.symm
  have hg63 : g' < 2 ^ 63 := by omega
  have hconv : int64OfUint64 g' = (g' : Int) := int64OfUint64_small g' hg63
  have hsub : (g' : Int) ≤ t → subInt64 t (g' : Int) = t - (g' : Int) := by
    intro hge
    exact subInt64_exact t g' (by omega) (by unfold IsInt64 at ht; omega)
  refine ⟨?_, hg63, hconv, ?_, ?_, ?_, ?_⟩
  · rw [estimatedSlotAtTime_eval n t g' hg hg63 ht, floor_div_twelve]
    congr 1
    by_cases hlt : t < (g' : Int)
    · rw [if_pos hlt]
      omega
    · rw [if_neg hlt, toNat_div_twelve _ (by omega)]
      congr 1
      omega
  · rw [hconv]
    exact hsub
  · rw [hconv]
    intro hnlt
    have hge : (g' : Int) ≤ t := by omega
    have h0 : 0 ≤ t - (g' : Int) := by omega
    have h1 : t - (g' : Int) < 2 ^ 63 := by unfold IsInt64 at ht; omega
    rw [hsub hge, uint64OfInt64_nonneg _ h0 h1]
    exact ⟨h0, Int.toNat_of_nonneg h0⟩
  · rw [estimatedSlotAtTime_eval n _ g' hg hg63 (by unfold IsInt64; omega), if_pos (by omega)]
  · rw [estimatedSlotAtTime_eval n _ g' hg hg63 (by unfold IsInt64; omega), if_neg (by omega),
      toNat_div_twelve _ (by omega)]

theorem estimatedSlotAtTime_machine_exact_witness :
    IsKnown DevNetwork ∧ MinGenesisTime DevNetwork = .ok 1668789575 ∧
      IsInt64 ((2 : Int) ^ 63 - 1) ∧
      EstimatedSlotAtTime DevNetwork ((2 : Int) ^ 63 - 1)
        = .ok (max 0 ⌊(((2 : Int) ^ 63 - 1 - ((1668789575 : Nat) : Int) : Int) : ℚ) / 12⌋).toNat :=
  ⟨by decide, by decide, by decide,
    (estimatedSlotAtTime_machine_exact DevNetwork ((2 : Int) ^ 63 - 1) 1668789575
      (by decide) (by decide) (by decide)).1⟩

/-! ## C12: the estimates on an identifier without a record -/

/-- C12: on an identifier without a record, `EstimatedSlotAtTime` ends in the
fatal undefined-network failure for every timestamp, the negative ones included
(the genesis lookup comes before the clamp), and returns no slot; so do
`EstimatedCurrentSlot` and `EstimatedCurrentEpoch` for every clock value. -/
theorem estimates_fail_on_unknown (n : Network) (t now : Int) (hn : ¬ IsKnown n) :
    EstimatedSlotAtTime n t = .error (.undefinedNetwork n) ∧
      EstimatedSlotAtTime n (-1) = .error (.undefinedNetwork n) ∧
      (∀ slot, EstimatedSlotAtTime n t ≠ .ok slot) ∧
      EstimatedCurrentSlot now n = .error (.undefinedNetwork n) ∧
      EstimatedCurrentEpoch now n = .error (.undefinedNetwork n) ∧
      (∀ slot, EstimatedCurrentSlot now n ≠ .ok slot) ∧
      (∀ epoch, EstimatedCurrentEpoch now n ≠ .ok epoch) := by
  have hg : MinGenesisTime n = .error (.undefinedNetwork n) := lookup_of_unknown n hn _ _ _ _
  have hslot : ∀ u : Int, EstimatedSlotAtTime n u = .error (.undefinedNetwork n) := by
    intro u
    unfold EstimatedSlotAtTime
    rw [hg]
  have hcur : EstimatedCurrentSlot now n = .error (.undefinedNetwork n) := hslot now
  have hep : EstimatedCurrentEpoch now n = .error (.undefinedNetwork n) := by
    unfold EstimatedCurrentEpoch
    rw [hcur]
  refine ⟨hslot t, hslot (-1), ?_, hcur, hep, ?_, ?_⟩
  · intro slot h
    rw [hslot t] at h
    cases h
  · intro slot h
    rw [hcur] at h
    cases h
  · intro epoch h
    rw [hep] at h
    cases h

theorem estimates_fail_on_unknown_witness :
    ¬ IsKnown "" ∧
      (EstimatedSlotAtTime "" (-5) = .error (.undefinedNetwork "") ∧
      EstimatedSlotAtTime "" (-1) = .error (.undefinedNetwork "") ∧
      (∀ slot, EstimatedSlotAtTime "" (-5) ≠ .ok slot) ∧
      EstimatedCurrentSlot 1700000000 "" = .error (.undefinedNetwork "") ∧
      EstimatedCurrentEpoch 1700000000 "" = .error (.undefinedNetwork "") ∧
      (∀ slot, EstimatedCurrentSlot 1700000000 "" ≠ .ok slot) ∧
      (∀ epoch, EstimatedCurrentEpoch 1700000000 "" ≠ .ok epoch)) :=
  ⟨by decide, estimates_fail_on_unknown "" (-5) 1700000000 (by decide)⟩

/-! ## C13: the records are pairwise different -/

/-- C13: two different known networks have different fork versions, different
deposit contract addresses and different genesis times. -/
theorem lookups_injective_on_known (n1 n2 : Network)
    (h1 : IsKnown n1) (h2 : IsKnown n2) (hne : n1 ≠ n2) :
    ForkVersion n1 ≠ ForkVersion n2 ∧
      DepositContractAddress n1 ≠ DepositContractAddress n2 ∧
      MinGenesisTime n1 ≠ MinGenesisTime n2 := by
  rcases h1 with rfl | rfl | rfl | rfl <;> rcases h2 with rfl | rfl | rfl | rfl <;>
    first
      | exact absurd rfl hne
      | exact ⟨by decide, by decide, by decide⟩

theorem lookups_injective_on_known_witness :
    IsKnown PyrmontNetwork ∧ IsKnown PraterNetwork ∧ PyrmontNetwork ≠ PraterNetwork ∧
      (ForkVersion PyrmontNetwork ≠ ForkVersion PraterNetwork ∧
      DepositContractAddress PyrmontNetwork ≠ DepositContractAddress PraterNetwork ∧
      MinGenesisTime PyrmontNetwork ≠ MinGenesisTime PraterNetwork) :=
  ⟨by decide, by decide, by decide,
    lookups_injective_on_known PyrmontNetwork PraterNetwork (by decide) (by decide) (by decide)⟩

/-! ## C14: the estimates never go backwards -/

/-- C14: on a known network, for `int64` timestamps `t1 ≤ t2` both slot estimates
return and the first is not above the second, whichever side of the genesis time
they are on; and for slots `s1 ≤ s2` the epoch of `s1` is not above that of `s2`. -/
theorem estimates_monotone (n : Network) (t1 t2 : Int) (s1 s2 : Nat)
    (hn : IsKnown n) (ht1 : IsInt64 t1) (ht2 : IsInt64 t2) (ht : t1 ≤ t2) (hs : s1 ≤ s2) :
    (∃ a b, EstimatedSlotAtTime n t1 = .ok a ∧ EstimatedSlotAtTime n t2 = .ok b ∧ a ≤ b) ∧
      EstimatedEpochAtSlot n s1 ≤ EstimatedEpochAtSlot n s2 := by
  obtain ⟨g, hg, hlo, hhi⟩ := minGenesisTime_of_known n hn
  have hg63 : g < 2 ^ 63 := by omega
  constructor
  · refine ⟨_, _, estimatedSlotAtTime_eval n t1 g hg hg63 ht1,
      estimatedSlotAtTime_eval n t2 g hg hg63 ht2, ?_⟩
    by_cases h1 : t1 < (g : Int)
    · rw [if_pos h1]
      exact Nat.zero_le _
    · have h2 : ¬ t2 < (g : Int) := by omega
      rw [if_neg h1, if_neg h2]
      apply Nat.div_le_div_right
      omega
  · show s1 / 32 ≤ s2 / 32
    exact Nat.div_le_div_right hs

theorem estimates_monotone_witness :
    IsKnown MainNetwork ∧ IsInt64 1606824000 ∧ IsInt64 1606824100 ∧
      (1606824000 : Int) ≤ 1606824100 ∧ (31 : Nat) ≤ 64 ∧
      ((∃ a b, EstimatedSlotAtTime MainNetwork 1606824000 = .ok a ∧
          EstimatedSlotAtTime MainNetwork 1606824100 = .ok b ∧ a ≤ b) ∧
        EstimatedEpochAtSlot MainNetwork 31 ≤ EstimatedEpochAtSlot MainNetwork 64) :=
  ⟨by decide, by decide, by decide, by decide, by decide,
    estimates_monotone MainNetwork 1606824000 1606824100 31 64
      (by decide) (by decide) (by decide) (by decide) (by decide)⟩

/-! ## C15: from a timestamp to an epoch -/

theorem floor_div_epoch (d : Int) : ⌊((d : Int) : ℚ) / 384⌋ = d / 384 := by
  have h := Rat.floor_intCast_div_natCast d 384
  simpa using h

/-- C15: on a known network with genesis time `g`, for an `int64` timestamp
`t ≥ g` the slot estimate returns and its epoch is `floor((t - g) / 384)`, where
384 is the slot duration in seconds times the slots per epoch. -/
theorem epoch_of_slotAtTime (n : Network) (t : Int) (g : Nat)
    (hn : IsKnown n) (hg : MinGenesisTime n = .ok g) (ht : IsInt64 t) (hge : (g : Int) ≤ t) :
    (∃ slot, EstimatedSlotAtTime n t = .ok slot ∧
        EstimatedEpochAtSlot n slot = (⌊((t - (g : Int) : Int) : ℚ) / 384⌋).toNat) ∧
      uint64OfSeconds (SlotDurationSec n) * SlotsPerEpoch n = 384 := by
  obtain ⟨g', hg', hlo, hhi⟩ := minGenesisTime_of_known n hn
  obtain rfl : g' = g := by
    rw [hg] at hg'
    injection hg' with h
    exact h.symm
  have hg63 : g' < 2 ^ 63 := by omega
  constructor
  · refine ⟨_, estimatedSlotAtTime_eval n t g' hg hg63 ht, ?_⟩
    rw [if_neg (by omega), floor_div_epoch]
    show (t - (g' : Int)).toNat / 12 / 32 = ((t - (g' : Int)) / 384).toNat
    rw [Nat.div_div_eq_div_mul]
    omega
  · rw [uint64OfSeconds_slotDurationSec]
    rfl

theorem epoch_of_slotAtTime_witness :
    IsKnown MainNetwork ∧ MinGenesisTime MainNetwork = .ok 1606824023 ∧
      IsInt64 1606827623 ∧ ((1606824023 : Nat) : Int) ≤ 1606827623 ∧
      ((∃ slot, EstimatedSlotAtTime MainNetwork 1606827623 = .ok slot ∧
          EstimatedEpochAtSlot MainNetwork slot
            = (⌊((1606827623 - ((1606824023 : Nat) : Int) : Int) : ℚ) / 384⌋).toNat) ∧
        uint64OfSeconds (SlotDurationSec MainNetwork) * SlotsPerEpoch MainNetwork = 384) :=
  ⟨by decide, by decide, by decide, by decide,
    epoch_of_slotAtTime MainNetwork 1606827623 1606824023
      (by decide) (by decide) (by decide) (by decide)⟩

/-! ## C16: the parsed network keeps the text -/

theorem networkFromString_empty_or_self (s : String) :
    NetworkFromString s = "" ∨ NetworkFromString s = s := by
  unfold NetworkFromString
  by_cases h1 : s = PyrmontNetwork
  · right
    rw [if_pos h1, h1]
  · by_cases h2 : s = PraterNetwork
    · right
      rw [if_neg h1, if_pos h2, h2]
    · by_cases h3 : s = MainNetwork
      · right
        rw [if_neg h1, if_neg h2, if_pos h3, h3]
      · by_cases h4 : s = DevNetwork
        · right
          rw [if_neg h1, if_neg h2, if_neg h3, if_pos h4, h4]
        · left
          rw [if_neg h1, if_neg h2, if_neg h3, if_neg h4]

/-- C16: for every string `s`, `NetworkFromString s` is the empty network or has
exactly the text `s`; so the function is injective on the strings it recognizes
and parsing its own result changes nothing; the four tags are pairwise different
and non-empty, and none of them is parsed to the empty network. -/
theorem networkFromString_keeps_text (s s' : String) :
    (NetworkFromString s = "" ∨ NetworkFromString s = s) ∧
      (NetworkFromString s ≠ "" → NetworkFromString s = NetworkFromString s' → s = s') ∧
      NetworkFromString (NetworkFromString s) = NetworkFromString s ∧
      (PyrmontNetwork ≠ PraterNetwork ∧ PyrmontNetwork ≠ MainNetwork ∧
        PyrmontNetwork ≠ DevNetwork ∧ PraterNetwork ≠ MainNetwork ∧
        PraterNetwork ≠ DevNetwork ∧ MainNetwork ≠ DevNetwork) ∧
      (PyrmontNetwork ≠ "" ∧ PraterNetwork ≠ "" ∧ MainNetwork ≠ "" ∧ DevNetwork ≠ "") ∧
      (NetworkFromString PyrmontNetwork ≠ "" ∧ NetworkFromString PraterNetwork ≠ "" ∧
        NetworkFromString MainNetwork ≠ "" ∧ NetworkFromString DevNetwork ≠ "") := by
  have hs := networkFromString_empty_or_self s
  refine ⟨hs, ?_, ?_, by decide, by decide, by decide⟩
  · intro hne heq
    have e1 : NetworkFromString s = s := by
      rcases hs with h | h
      · exact absurd h hne
      · exact h
    have e2 : NetworkFromString s' = s' := by
      rcases networkFromString_empty_or_self s' with h | h
      · rw [heq] at hne
        exact absurd h hne
      · exact h
    rw [← e1, heq, e2]
  · rcases hs with h | h
    · rw [h]
      decide
    · rw [h]
      exact h

theorem networkFromString_keeps_text_witness :
    (NetworkFromString "prater" ≠ "" ∧ NetworkFromString "prater" = NetworkFromString "prater") ∧
      "prater" = "prater" :=
  ⟨⟨by decide, by decide⟩,
    (networkFromString_keeps_text "prater" "prater").2.1 (by decide) (by decide)⟩

end core
